import Mathlib

/-!
Verification development for the MCP host repository (backend/mcp_core.py,
backend/mcp_host_server.py, backend/filesystem_server.py, backend/browser_server.py,
backend/github_server.py).

The Python code is shallowly embedded: JSON values become the inductive `JVal`,
Python dicts become association lists, raised exceptions become `Except`, and the
external collaborators (the LLM planner, the GitHub/browser network back ends, the
concrete on-disk filesystem) become explicit oracle parameters.  Every definition
mirrors the corresponding source function; comments cite the source lines.
-/

namespace MCP

/-- JSON-like values: the shape of Python dict/list/str/int/bool/None data that
flows through the tool layer (tool `parameters` schemas, `args`, results). -/
inductive JVal where
  | str (s : String)
  | nat (n : Nat)
  | bool (b : Bool)
  | none
  | list (xs : List JVal)
  | obj (kvs : List (String × JVal))

/-- Python truthiness for the modelled values (`bool(x)`). -/
def pyTruthy : JVal → Bool
  | .str s => s != ""
  | .nat n => n != 0
  | .bool b => b
  | .none => false
  | .list xs => !xs.isEmpty
  | .obj kvs => !kvs.isEmpty

/-- Python `a or b` on modelled values. -/
def pyOr (a b : JVal) : JVal := if pyTruthy a then a else b

/-- Lookup in an association list modelling a Python dict (`d.get(k)`). -/
def jLookup (kvs : List (String × JVal)) (k : String) : Option JVal :=
  (kvs.find? (fun p => p.1 == k)).map (fun p => p.2)

/-- Membership test `k in d` for a modelled dict value (False on non-dicts,
matching the only call sites, which guard with an isinstance/dict check). -/
def jHasKey (args : JVal) (k : String) : Bool :=
  match args with
  | .obj kvs => kvs.any (fun p => p.1 == k)
  | _ => false

/-- Python `isinstance(x, dict)` for modelled values. -/
def jIsObj : JVal → Bool
  | .obj _ => true
  | _ => false

/-- Boolean prefix test on character lists. -/
def listIsPrefix : List Char → List Char → Bool
  | [], _ => true
  | _ :: _, [] => false
  | a :: as, b :: bs => a == b && listIsPrefix as bs

/-- Containment of `sub` as a contiguous run inside `s`, on character lists. -/
def listContainsRun (sub : List Char) : List Char → Bool
  | [] => sub.isEmpty
  | c :: rest => listIsPrefix sub (c :: rest) || listContainsRun sub rest

/-- Python `sub in s` (substring containment) on strings. -/
def pyContains (s sub : String) : Bool := listContainsRun sub.data s.data

/-- Python `s.startswith(pre)`. -/
def pyStartsWith (s pre : String) : Bool := listIsPrefix pre.data s.data

/-- ASCII whitespace (the whitespace occurring in the modelled inputs). -/
def isWsChar (c : Char) : Bool := c == ' ' || c == '\t' || c == '\n' || c == '\r'

/-- Python `s.strip()`. -/
def pyStrip (s : String) : String :=
  String.mk (((s.data.dropWhile isWsChar).reverse.dropWhile isWsChar).reverse)

/-- Lower-casing of the ASCII letters (Python `str.lower` on the modelled
inputs, which contain no other cased characters). -/
def charLower : Char → Char
  | 'A' => 'a' | 'B' => 'b' | 'C' => 'c' | 'D' => 'd' | 'E' => 'e' | 'F' => 'f'
  | 'G' => 'g' | 'H' => 'h' | 'I' => 'i' | 'J' => 'j' | 'K' => 'k' | 'L' => 'l'
  | 'M' => 'm' | 'N' => 'n' | 'O' => 'o' | 'P' => 'p' | 'Q' => 'q' | 'R' => 'r'
  | 'S' => 's' | 'T' => 't' | 'U' => 'u' | 'V' => 'v' | 'W' => 'w' | 'X' => 'x'
  | 'Y' => 'y' | 'Z' => 'z'
  | c => c

/-- Python `s.lower()`. -/
def pyLower (s : String) : String := String.mk (s.data.map charLower)

/-- Worker for splitting on a non-empty separator: the Nat counts separator
characters still to be consumed after a cut. -/
def splitConsume (sep : List Char) : Nat → List Char → List Char → List (List Char)
  | _, [], acc => [acc.reverse]
  | Nat.succ k, _ :: rest, acc => splitConsume sep k rest acc
  | 0, c :: rest, acc =>
    if listIsPrefix sep (c :: rest) && !sep.isEmpty then
      acc.reverse :: splitConsume sep (sep.length - 1) rest []
    else splitConsume sep 0 rest (c :: acc)

/-- Python `s.split(sep)` for a non-empty separator. -/
def pySplitOn (s sep : String) : List String :=
  (splitConsume sep.data 0 s.data []).map String.mk

/-- Join a list of strings with a separator. -/
def joinWith (sep : String) : List String → String
  | [] => ""
  | [x] => x
  | x :: y :: rest => x ++ sep ++ joinWith sep (y :: rest)

/-- Worker for replacing every occurrence of a non-empty pattern. -/
def replaceConsume (old new : List Char) : Nat → List Char → List Char
  | Nat.succ k, _ :: rest => replaceConsume old new k rest
  | _, [] => []
  | 0, c :: rest =>
    if listIsPrefix old (c :: rest) && !old.isEmpty then
      new ++ replaceConsume old new (old.length - 1) rest
    else c :: replaceConsume old new 0 rest

/-- Python `s.replace(old, new)` for a non-empty pattern. -/
def pyReplace (s old new : String) : String :=
  String.mk (replaceConsume old.data new.data 0 s.data)

/-- First n characters of a string (Python `s[:n]`, file read of n chars). -/
def pyTake (s : String) (n : Nat) : String := String.mk (s.data.take n)

/-- Characters from position n on (Python `s[n:]`). -/
def pyDrop (s : String) (n : Nat) : String := String.mk (s.data.drop n)

/-- Parse a nonnegative decimal literal (the successful cases of Python
`int(str)` occurring here). -/
def pyParseNat (s : String) : Option Nat :=
  if !s.data.isEmpty && s.data.all (fun c => c.isDigit) then
    some (s.data.foldl (fun n c => n * 10 + (c.toNat - 48)) 0)
  else Option.none

/-- Python `s.split('.', 1)[-1]`: everything after the first dot, or the whole
string when no dot occurs (mcp_host_server.py line 375). -/
def afterFirstDot (s : String) : String :=
  match pySplitOn s "." with
  | [] => s
  | [x] => x
  | _ :: rest => joinWith "." rest

/-- Worker for whitespace splitting, accumulating the current word reversed. -/
def wordsAux : List Char → List Char → List String
  | [], acc => if acc.isEmpty then [] else [String.mk acc.reverse]
  | c :: rest, acc =>
    if isWsChar c then
      if acc.isEmpty then wordsAux rest []
      else String.mk acc.reverse :: wordsAux rest []
    else wordsAux rest (c :: acc)

/-- Python `s.split()` with no separator: split on whitespace runs, no empties. -/
def pyWords (s : String) : List String := wordsAux s.data []

/-- MCPTool (mcp_core.py lines 26-36): a tool descriptor with a name, a
description and a JSON-Schema object for its parameters. -/
structure MCPTool where
  name : String
  description : String
  parameters : JVal

/-- ToolExecutionError (mcp_core.py lines 39-52): the normalized failure shape
raised by the invocation bridge, with an optional numeric code and details. -/
structure ToolExecutionError where
  message : String
  code : Option Nat
  details : Option String
deriving DecidableEq

/-- Outcome of calling a provider's execute implementation in Python terms:
a returned value, a raised ToolExecutionError, or any other raised exception
(carrying its message). -/
inductive PyOutcome where
  | ret (v : JVal)
  | toolError (e : ToolExecutionError)
  | exn (msg : String)

/-- A provider (subclass of IMCPExternalServer, mcp_core.py lines 55-87).
`list_tools` may raise (modelled by `Except`), matching how the registry treats
discovery failures.  `asyncOverride`/`syncOverride` record whether the subclass
defines its own `async_execute_tool`/`execute_tool` attribute (`Option.none`
means the attribute resolves to the inherited base method, whose body raises
NotImplementedError: lines 74-79 and 81-87). -/
structure Server where
  name : String
  list_tools : Except String (List MCPTool)
  asyncOverride : Option (String → JVal → PyOutcome)
  syncOverride : Option (String → JVal → PyOutcome)

/-- Records which execute callable run_tool actually invoked. -/
inductive Invocation where
  | asyncAttr (tool : String)
  | baseAsync (tool : String)
  | syncAttr (tool : String)
  | baseSync (tool : String)
deriving DecidableEq

/-- Python list repr of a list of strings, as rendered into the f-string of the
missing-parameters message (mcp_core.py line 175). -/
def reprStrList (xs : List String) : String :=
  "[" ++ String.intercalate ", " (xs.map (fun s => "'" ++ s ++ "'")) ++ "]"

/-- IMCPExternalServer.tool_by_name (mcp_core.py lines 142-147): scan
`list_tools()` for the first tool with the given name; discovery failures
propagate. -/
def tool_by_name (s : Server) (tool_name : String) : Except String (Option MCPTool) :=
  match s.list_tools with
  | .error e => .error e
  | .ok ts => .ok (ts.find? (fun t => t.name == tool_name))

/-- The lightweight fallback's `schema.get("required", None)` restricted to the
shapes occurring in this repository (a list of strings or absent); the caller's
`if required:` then treats an empty or absent list as no requirement
(mcp_core.py lines 166-172). -/
def getRequired (schema : JVal) : List String :=
  match schema with
  | .obj kvs =>
    match jLookup kvs "required" with
    | some (.list xs) => xs.filterMap (fun v => match v with | .str s => some s | _ => Option.none)
    | _ => []
  | _ => []

/-- IMCPExternalServer.validate_args (mcp_core.py lines 149-175).
`haveJS` models the module-level HAVE_JSONSCHEMA flag (whether the optional
jsonschema dependency imported); `jsValidate` is the oracle modelling
`jsonschema.validate`, returning `some message` when it raises a validation
error and `none` when the instance validates. -/
def validate_args (haveJS : Bool) (jsValidate : JVal → JVal → Option String)
    (tool : MCPTool) (args : JVal) : Except ToolExecutionError Unit :=
  if !jIsObj args then
    .error ⟨"Tool arguments must be an object/dict", some 400, Option.none⟩
  else
    let schema := pyOr tool.parameters (JVal.obj [])
    if haveJS && jIsObj schema then
      match jsValidate args schema with
      | some ve => .error ⟨"Argument validation failed: " ++ ve, some 400, some ve⟩
      | Option.none => .ok ()
    else
      let required := getRequired schema
      if required.isEmpty then .ok ()
      else
        let missing := required.filter (fun r => !jHasKey args r)
        if missing.isEmpty then .ok ()
        else .error ⟨"Missing required parameters: " ++ reprStrList missing, some 400, Option.none⟩

/-- CPython attribute semantics behind mcp_core.py lines 112-116 and 126:
`getattr(self, "async_execute_tool", None)` yields a freshly created bound-method
object (the method always exists, at least inherited from the base class), and a
bound method is never `is`-identical to the plain function stored on the class.
Hence the guards `impl_async is not None and impl_async is not
IMCPExternalServer.async_execute_tool` (line 116) and the analogous guard for
`execute_tool` (line 126) are true for every server instance, whether or not the
subclass overrides the method.  The faithful translation of each guard is the
constant true. -/
def boundAttrNeverClassFunction (_s : Server) : Bool := true

/-- Wrap the outcome of a provider call as run_tool does: ToolExecutionError is
re-raised unchanged (mcp_core.py lines 135-136), any other exception is wrapped
with code 500 (lines 137-140). -/
def wrapOutcome : PyOutcome → Except ToolExecutionError JVal
  | .ret v => .ok v
  | .toolError e => .error e
  | .exn m => .error ⟨m, some 500, Option.none⟩

/-- IMCPExternalServer.run_tool (mcp_core.py lines 89-140): resolve the tool,
validate arguments, then dispatch to an execute implementation; all failures are
normalized into ToolExecutionError.  The second component records which execute
callable was actually invoked (empty when none was). -/
def run_tool (haveJS : Bool) (jsValidate : JVal → JVal → Option String)
    (s : Server) (tool_name : String) (args : JVal) :
    Except ToolExecutionError JVal × List Invocation :=
  match s.list_tools with
  | .error e =>
    -- list_tools raised inside tool_by_name; wrapped by the outer handler (line 140)
    (.error ⟨e, some 500, Option.none⟩, [])
  | .ok ts =>
    match ts.find? (fun t => t.name == tool_name) with
    | Option.none =>
      (.error ⟨"Tool '" ++ tool_name ++ "' not found on server '" ++ s.name ++ "'",
               some 404, Option.none⟩, [])
    | some tool =>
      match validate_args haveJS jsValidate tool (pyOr args (JVal.obj [])) with
      | .error e => (.error e, [])
      | .ok _ =>
        if boundAttrNeverClassFunction s then
          -- line 116 guard: always taken (see boundAttrNeverClassFunction).
          -- The attribute `async_execute_tool` resolves to the subclass override
          -- when present, else to the inherited base method; either way it is a
          -- coroutine function, so line 118 awaits it.
          match s.asyncOverride with
          | some f => (wrapOutcome (f tool_name args), [.asyncAttr tool_name])
          | Option.none =>
            -- base async_execute_tool body (lines 81-87): raise NotImplementedError
            (.error ⟨"async_execute_tool not implemented (async)", some 500, Option.none⟩,
             [.baseAsync tool_name])
        else
          -- lines 126-134, unreachable given the constant-true guard above;
          -- embedded for completeness of the translation.
          if boundAttrNeverClassFunction s then
            match s.syncOverride with
            | some f => (wrapOutcome (f tool_name args), [.syncAttr tool_name])
            | Option.none =>
              (.error ⟨"execute_tool not implemented (sync)", some 500, Option.none⟩,
               [.baseSync tool_name])
          else
            (.error ⟨"No tool execution method implemented in server", some 501, Option.none⟩, [])

/-! ## Filesystem server (backend/filesystem_server.py) -/

/-- Python exceptions distinguished by filesystem_server's handlers: ValueError
(caught at line 306 into a code-400 dict) versus any other exception (caught at
line 309 into a code-500 dict). -/
inductive PyExn where
  | valueError (msg : String)
  | otherError (msg : String)
deriving DecidableEq

/-- SANDBOX_DIR (filesystem_server.py line 18): Path("mcp_sandbox").resolve() is
the sandbox root; its absolute value depends on the process working directory,
modelled here as a fixed root. -/
def SANDBOX_DIR : String := "/srv/app/mcp_sandbox"

/-- ALLOWED_TOPDIRS (filesystem_server.py line 21): None in the source. -/
def ALLOWED_TOPDIRS : Option (List String) := Option.none

/-- MAX_READ_CHARS (filesystem_server.py line 19). -/
def MAX_READ_CHARS : Nat := 2000

/-- MAX_WRITE_BYTES (filesystem_server.py line 20). -/
def MAX_WRITE_BYTES : Nat := 2 * 1024 * 1024

/-- Lexical resolution of `root / rel` for a relative `rel` free of ".."
segments: drop empty and "." segments and append the rest to the root.  This
models Path.resolve() for a symlink-free filesystem (symlink indirection is
outside the embedding). -/
def resolveUnder (root rel : String) : String :=
  ((pySplitOn rel "/").filter (fun s => s != "" && s != ".")).foldl
    (fun acc s => acc ++ "/" ++ s) root

/-- The helper is_within_sandbox (filesystem_server.py lines 39-44) on an
already-resolved path: a raw string-prefix test against the sandbox root. -/
def is_within_sandbox (p : String) : Bool := pyStartsWith p SANDBOX_DIR

/-- The helper get_safe_path (filesystem_server.py lines 46-79), taking the raw
argument value: empty/falsy values and validation failures raise ValueError;
calling .strip() on a non-string raises AttributeError (another exception). -/
def get_safe_path (relative_path : JVal) : Except PyExn String :=
  if !pyTruthy relative_path then
    .error (.valueError "Path is required and cannot be empty.")
  else
    match relative_path with
    | .str s0 =>
      if pyStrip s0 == "" then .error (.valueError "Path is required and cannot be empty.")
      else
        let rel := pyReplace (pyStrip s0) "\\" "/"
        if pyStartsWith rel "/" then
          .error (.valueError "Absolute paths are not allowed. Provide a sandbox-relative path.")
        else if (pySplitOn rel "/").contains ".." then
          .error (.valueError "Path traversal detected (.. not allowed).")
        else
          let candidate := resolveUnder SANDBOX_DIR rel
          if !is_within_sandbox candidate then
            .error (.valueError "Resolved path is outside the sandbox and is forbidden.")
          else
            match ALLOWED_TOPDIRS with
            | some tops =>
              let top := ((pySplitOn rel "/").headD "")
              if !tops.contains top then
                .error (.valueError ("Top level directory '" ++ top ++ "' is not allowed by server policy."))
              else .ok candidate
            | Option.none => .ok candidate
    | _ => .error (.otherError "AttributeError: strip")

/-- Characters before the last space of a character list (Python
`s.rsplit(" ", 1)[0]` when a space is present). -/
def beforeLastSpace (cs : List Char) : List Char :=
  ((cs.reverse.dropWhile (fun c => c != ' ')).drop 1).reverse

/-- The helper truncate_text (filesystem_server.py lines 81-85). -/
def truncate_text (text : String) (maxChars : Nat) : String :=
  let cleaned := joinWith " " (pyWords text)
  if cleaned.length ≤ maxChars then cleaned
  else
    let cut := (pyTake cleaned maxChars).data
    let kept := if cut.contains ' ' then beforeLastSpace cut else cut
    String.mk kept ++ "…"

/-- Python `int(x)` on the modelled values, restricted to the nonnegative
integers occurring in this code path; a non-numeric string raises ValueError and
other types raise TypeError. -/
def pyInt (v : JVal) : Except PyExn Nat :=
  match v with
  | .nat n => .ok n
  | .bool b => .ok (if b then 1 else 0)
  | .str s =>
    match pyParseNat (pyStrip s) with
    | some n => .ok n
    | Option.none => .error (.valueError ("invalid literal for int(): " ++ s))
  | _ => .error (.otherError "TypeError: int() argument")

/-- Dict get with default on an association list (`kvs.get(k, dflt)`). -/
def jGetD (kvs : List (String × JVal)) (k : String) (dflt : JVal) : JVal :=
  (jLookup kvs k).getD dflt

/-- Parent directory of a path string (Python Path.parent). -/
def parentOf (p : String) : String :=
  joinWith "/" (pySplitOn p "/").dropLast

/-- Strip the sandbox prefix (Python mp.relative_to(SANDBOX_DIR)). -/
def relativeToSandbox (p : String) : String := pyDrop p (SANDBOX_DIR.length + 1)

/-- An oracle for the state of the on-disk sandbox: the pure queries the
filesystem tools perform.  `entries` models sorted(p.iterdir()) together with
the per-entry is_dir/size lookups; `rmdirOk` tells whether p.rmdir() would
succeed (the directory is empty). -/
structure FsOracle where
  pathExists : String → Bool
  isDir : String → Bool
  readContent : String → String
  sizeOf : String → Nat
  mtimeOf : String → Nat
  ctimeOf : String → Nat
  entries : String → List (String × Bool × Option Nat)
  globMatch : String → String → List String
  rmdirOk : String → Bool

/-- Mutating or content-reading filesystem operations performed by the tools,
recorded as an effect trace. -/
inductive FsOp where
  | readFileOp (p : String)
  | listDirOp (p : String)
  | globOp (base pattern : String)
  | mkdirOp (p : String)
  | writeFileOp (p : String) (content : String)
  | appendFileOp (p : String) (content : String)
  | unlinkOp (p : String)
  | rmdirOp (p : String)
  | rmtreeOp (p : String)
  | moveOp (src dst : String)
  | copyFileOp (src dst : String)
  | copyTreeOp (src dst : String)
deriving DecidableEq

/-- The error-dict shape produced by the filesystem tools. -/
def fsErr (m : String) (c : Nat) : JVal :=
  JVal.obj [("error", JVal.str m), ("code", JVal.nat c)]

/-- Convert a raised exception to the dict the handlers at filesystem_server.py
lines 306-311 return: ValueError carries code 400, anything else code 500. -/
def exnResult : PyExn → JVal
  | .valueError m => fsErr m 400
  | .otherError m => fsErr m 500

/-- Every tool branch starts by calling args.get; a non-dict args value raises
AttributeError there, caught by the outer handler into a code-500 dict. -/
def withArgsObj (args : JVal) (k : List (String × JVal) → JVal × List FsOp) :
    JVal × List FsOp :=
  match args with
  | .obj kvs => k kvs
  | _ => (fsErr "AttributeError: get" 500, [])

/-- filesystem.read_file branch (filesystem_server.py lines 138-149). -/
def fsReadFile (fs : FsOracle) (args : JVal) : JVal × List FsOp :=
  withArgsObj args fun kvs =>
    let relv := jGetD kvs "path" (JVal.str "")
    match pyInt (jGetD kvs "max_chars" (JVal.nat MAX_READ_CHARS)) with
    | .error e => (exnResult e, [])
    | .ok maxChars =>
      match get_safe_path relv with
      | .error e => (exnResult e, [])
      | .ok p =>
        if !fs.pathExists p then (fsErr "File not found" 404, [])
        else if fs.isDir p then (fsErr "Path is a directory, not a file" 400, [])
        else
          let txt := pyTake (fs.readContent p) (maxChars + 1024)
          (JVal.obj [("path", relv), ("content", JVal.str (truncate_text txt maxChars)),
                     ("code", JVal.nat 200)],
           [FsOp.readFileOp p])

/-- filesystem.write_file branch (filesystem_server.py lines 151-179); the
atomic tempfile-write-and-rename is modelled as one write effect. -/
def fsWriteFile (_fs : FsOracle) (args : JVal) : JVal × List FsOp :=
  withArgsObj args fun kvs =>
    let relv := jGetD kvs "path" (JVal.str "")
    let contentv := jGetD kvs "content" (JVal.str "")
    match pyInt (jGetD kvs "max_bytes" (JVal.nat MAX_WRITE_BYTES)) with
    | .error e => (exnResult e, [])
    | .ok maxBytes =>
      match get_safe_path relv with
      | .error e => (exnResult e, [])
      | .ok p =>
        let ops0 := [FsOp.mkdirOp (parentOf p)]
        match contentv with
        | .str c =>
          if c.utf8ByteSize > maxBytes then
            (fsErr ("Content too large (>" ++ toString maxBytes ++ " bytes)") 413, ops0)
          else
            (JVal.obj [("status", JVal.str "success"), ("path", relv),
                       ("bytes_written", JVal.nat c.utf8ByteSize), ("code", JVal.nat 200)],
             ops0 ++ [FsOp.writeFileOp p c])
        | _ => (fsErr "AttributeError: encode" 500, ops0)

/-- filesystem.append_file branch (filesystem_server.py lines 181-194). -/
def fsAppendFile (_fs : FsOracle) (args : JVal) : JVal × List FsOp :=
  withArgsObj args fun kvs =>
    let relv := jGetD kvs "path" (JVal.str "")
    let contentv := jGetD kvs "content" (JVal.str "")
    match pyInt (jGetD kvs "max_append_bytes" (JVal.nat MAX_WRITE_BYTES)) with
    | .error e => (exnResult e, [])
    | .ok maxAppend =>
      match get_safe_path relv with
      | .error e => (exnResult e, [])
      | .ok p =>
        let ops0 := [FsOp.mkdirOp (parentOf p)]
        match contentv with
        | .str c =>
          if c.utf8ByteSize > maxAppend then
            (fsErr ("Append content too large (>" ++ toString maxAppend ++ " bytes)") 413, ops0)
          else
            (JVal.obj [("status", JVal.str "success"), ("path", relv),
                       ("bytes_appended", JVal.nat c.utf8ByteSize), ("code", JVal.nat 200)],
             ops0 ++ [FsOp.appendFileOp p c])
        | _ => (fsErr "AttributeError: encode" 500, ops0)

/-- filesystem.list_dir branch (filesystem_server.py lines 196-210). -/
def fsListDir (fs : FsOracle) (args : JVal) : JVal × List FsOp :=
  withArgsObj args fun kvs =>
    let relv := jGetD kvs "path" (JVal.str "")
    match get_safe_path relv with
    | .error e => (exnResult e, [])
    | .ok p =>
      if !fs.pathExists p then (fsErr "Directory not found" 404, [])
      else if !fs.isDir p then (fsErr "Path is not a directory" 400, [])
      else
        let items := (fs.entries p).map (fun e =>
          JVal.obj [("name", JVal.str e.1), ("is_dir", JVal.bool e.2.1),
                    ("size", match e.2.2 with | some n => JVal.nat n | Option.none => JVal.none)])
        (JVal.obj [("path", relv), ("items", JVal.list items), ("code", JVal.nat 200)],
         [FsOp.listDirOp p])

/-- filesystem.make_directory branch (filesystem_server.py lines 212-216). -/
def fsMakeDirectory (_fs : FsOracle) (args : JVal) : JVal × List FsOp :=
  withArgsObj args fun kvs =>
    let relv := jGetD kvs "path" (JVal.str "")
    match get_safe_path relv with
    | .error e => (exnResult e, [])
    | .ok p =>
      (JVal.obj [("status", JVal.str "success"), ("path", relv), ("code", JVal.nat 200)],
       [FsOp.mkdirOp p])

/-- filesystem.file_exists branch (filesystem_server.py lines 218-221). -/
def fsFileExists (fs : FsOracle) (args : JVal) : JVal × List FsOp :=
  withArgsObj args fun kvs =>
    let relv := jGetD kvs "path" (JVal.str "")
    match get_safe_path relv with
    | .error e => (exnResult e, [])
    | .ok p =>
      (JVal.obj [("path", relv), ("exists", JVal.bool (fs.pathExists p)), ("code", JVal.nat 200)], [])

/-- filesystem.delete branch (filesystem_server.py lines 223-240); the failed
rmdir attempt on a non-empty directory leaves no effect. -/
def fsDelete (fs : FsOracle) (args : JVal) : JVal × List FsOp :=
  withArgsObj args fun kvs =>
    let relv := jGetD kvs "path" (JVal.str "")
    let recursive := pyTruthy (jGetD kvs "recursive" (JVal.bool false))
    match get_safe_path relv with
    | .error e => (exnResult e, [])
    | .ok p =>
      if !fs.pathExists p then (fsErr "Path not found" 404, [])
      else if fs.isDir p then
        if recursive then
          (JVal.obj [("status", JVal.str "deleted"), ("path", relv), ("code", JVal.nat 200)],
           [FsOp.rmtreeOp p])
        else if fs.rmdirOk p then
          (JVal.obj [("status", JVal.str "deleted"), ("path", relv), ("code", JVal.nat 200)],
           [FsOp.rmdirOp p])
        else (fsErr "Directory not empty; use recursive=true to remove" 400, [])
      else
        (JVal.obj [("status", JVal.str "deleted"), ("path", relv), ("code", JVal.nat 200)],
         [FsOp.unlinkOp p])

/-- filesystem.move branch (filesystem_server.py lines 242-251): src is resolved
before dst, both before any effect. -/
def fsMove (fs : FsOracle) (args : JVal) : JVal × List FsOp :=
  withArgsObj args fun kvs =>
    let srcv := jGetD kvs "src" (JVal.str "")
    let dstv := jGetD kvs "dst" (JVal.str "")
    match get_safe_path srcv with
    | .error e => (exnResult e, [])
    | .ok src =>
      match get_safe_path dstv with
      | .error e => (exnResult e, [])
      | .ok dst =>
        if !fs.pathExists src then (fsErr "Source not found" 404, [])
        else
          (JVal.obj [("status", JVal.str "moved"), ("src", srcv), ("dst", dstv),
                     ("code", JVal.nat 200)],
           [FsOp.mkdirOp (parentOf dst), FsOp.moveOp src dst])

/-- filesystem.copy branch (filesystem_server.py lines 253-268). -/
def fsCopy (fs : FsOracle) (args : JVal) : JVal × List FsOp :=
  withArgsObj args fun kvs =>
    let srcv := jGetD kvs "src" (JVal.str "")
    let dstv := jGetD kvs "dst" (JVal.str "")
    match get_safe_path srcv with
    | .error e => (exnResult e, [])
    | .ok src =>
      match get_safe_path dstv with
      | .error e => (exnResult e, [])
      | .ok dst =>
        if !fs.pathExists src then (fsErr "Source not found" 404, [])
        else if fs.isDir src then
          if fs.pathExists dst then
            (fsErr "Destination already exists for directory copy" 400, [])
          else
            (JVal.obj [("status", JVal.str "copied"), ("src", srcv), ("dst", dstv),
                       ("code", JVal.nat 200)],
             [FsOp.copyTreeOp src dst])
        else
          (JVal.obj [("status", JVal.str "copied"), ("src", srcv), ("dst", dstv),
                     ("code", JVal.nat 200)],
           [FsOp.mkdirOp (parentOf dst), FsOp.copyFileOp src dst])

/-- filesystem.get_metadata branch (filesystem_server.py lines 270-283). -/
def fsGetMetadata (fs : FsOracle) (args : JVal) : JVal × List FsOp :=
  withArgsObj args fun kvs =>
    let relv := jGetD kvs "path" (JVal.str "")
    match get_safe_path relv with
    | .error e => (exnResult e, [])
    | .ok p =>
      if !fs.pathExists p then (fsErr "Path not found" 404, [])
      else
        (JVal.obj [("path", relv), ("is_dir", JVal.bool (fs.isDir p)),
                   ("size_bytes", JVal.nat (fs.sizeOf p)),
                   ("modified_time", JVal.nat (fs.mtimeOf p)),
                   ("created_time", JVal.nat (fs.ctimeOf p)), ("code", JVal.nat 200)], [])

/-- filesystem.search_files branch (filesystem_server.py lines 285-301). -/
def fsSearchFiles (fs : FsOracle) (args : JVal) : JVal × List FsOp :=
  withArgsObj args fun kvs =>
    let relv := jGetD kvs "path" (JVal.str "")
    let patternv := jGetD kvs "pattern" (JVal.str "*")
    match pyInt (jGetD kvs "max_results" (JVal.nat 100)) with
    | .error e => (exnResult e, [])
    | .ok maxResults =>
      match get_safe_path relv with
      | .error e => (exnResult e, [])
      | .ok base =>
        if !fs.pathExists base || !fs.isDir base then (fsErr "Base directory not found" 404, [])
        else
          match patternv with
          | .str pat =>
            let relMatches := ((fs.globMatch base pat).take maxResults).filterMap (fun m =>
              if is_within_sandbox m then some (JVal.str (relativeToSandbox m)) else Option.none)
            (JVal.obj [("base", relv), ("pattern", patternv),
                       ("matches", JVal.list relMatches),
                       ("count", JVal.nat relMatches.length), ("code", JVal.nat 200)],
             [FsOp.globOp base pat])
          | _ => (fsErr "TypeError: unsupported operand type for path join" 500, [])

/-- FilesystemMCPServer.execute_tool (filesystem_server.py lines 135-311):
route on the tool name; the paired list is the trace of filesystem effects the
call performed.  The outer try/except never lets an exception escape: every
outcome is a dict. -/
def fs_execute_tool (fs : FsOracle) (tool_name : String) (args : JVal) : JVal × List FsOp :=
  if tool_name == "filesystem.read_file" then fsReadFile fs args
  else if tool_name == "filesystem.write_file" then fsWriteFile fs args
  else if tool_name == "filesystem.append_file" then fsAppendFile fs args
  else if tool_name == "filesystem.list_dir" then fsListDir fs args
  else if tool_name == "filesystem.make_directory" then fsMakeDirectory fs args
  else if tool_name == "filesystem.file_exists" then fsFileExists fs args
  else if tool_name == "filesystem.delete" then fsDelete fs args
  else if tool_name == "filesystem.move" then fsMove fs args
  else if tool_name == "filesystem.copy" then fsCopy fs args
  else if tool_name == "filesystem.get_metadata" then fsGetMetadata fs args
  else if tool_name == "filesystem.search_files" then fsSearchFiles fs args
  else (fsErr ("Unknown tool: " ++ tool_name) 404, [])

/-- Property schema fragments used by the providers' tool declarations. -/
def propStr : JVal := JVal.obj [("type", JVal.str "string")]

/-- Integer property fragment. -/
def propInt : JVal := JVal.obj [("type", JVal.str "integer")]

/-- Boolean property fragment. -/
def propBool : JVal := JVal.obj [("type", JVal.str "boolean")]

/-- Array property fragment. -/
def propArray : JVal := JVal.obj [("type", JVal.str "array")]

/-- An object schema with properties and a required list. -/
def objSchema (props : List (String × JVal)) (required : List String) : JVal :=
  JVal.obj [("type", JVal.str "object"), ("properties", JVal.obj props),
            ("required", JVal.list (required.map JVal.str))]

/-- An object schema with properties and no required key. -/
def objSchemaNoReq (props : List (String × JVal)) : JVal :=
  JVal.obj [("type", JVal.str "object"), ("properties", JVal.obj props)]

/-- FilesystemMCPServer.list_tools (filesystem_server.py lines 98-133). -/
def filesystemTools : List MCPTool :=
  [⟨"filesystem.read_file", "Read a file (truncated by default).",
    objSchema [("path", propStr), ("max_chars", propInt)] ["path"]⟩,
   ⟨"filesystem.write_file", "Write (overwrite) a file. Performs atomic write and enforces max size.",
    objSchema [("path", propStr), ("content", propStr), ("max_bytes", propInt)] ["path", "content"]⟩,
   ⟨"filesystem.append_file", "Append content to existing file (creates file if missing).",
    objSchema [("path", propStr), ("content", propStr), ("max_append_bytes", propInt)] ["path", "content"]⟩,
   ⟨"filesystem.list_dir", "List directory contents (files and directories).",
    objSchema [("path", propStr)] ["path"]⟩,
   ⟨"filesystem.make_directory", "Create directory (recursively).",
    objSchema [("path", propStr)] ["path"]⟩,
   ⟨"filesystem.file_exists", "Check if file/directory exists.",
    objSchema [("path", propStr)] ["path"]⟩,
   ⟨"filesystem.delete", "Delete a file or empty directory.",
    objSchema [("path", propStr), ("recursive", propBool)] ["path"]⟩,
   ⟨"filesystem.move", "Move/rename a file or directory inside sandbox.",
    objSchema [("src", propStr), ("dst", propStr)] ["src", "dst"]⟩,
   ⟨"filesystem.copy", "Copy a file inside sandbox.",
    objSchema [("src", propStr), ("dst", propStr)] ["src", "dst"]⟩,
   ⟨"filesystem.get_metadata", "Get file metadata (size, is_dir, modified_time).",
    objSchema [("path", propStr)] ["path"]⟩,
   ⟨"filesystem.search_files", "Search files with glob pattern under a directory.",
    objSchema [("path", propStr), ("pattern", propStr), ("max_results", propInt)] ["path", "pattern"]⟩]

/-- FilesystemMCPServer (filesystem_server.py lines 90-311): name "Filesystem"
(line 94); defines a synchronous execute_tool and does not override
async_execute_tool. -/
def filesystemServer (fs : FsOracle) : Server :=
  { name := "Filesystem"
    list_tools := .ok filesystemTools
    asyncOverride := Option.none
    syncOverride := some (fun t a => PyOutcome.ret (fs_execute_tool fs t a).1) }

/-! ## Browser and GitHub servers (tool declarations and execute shapes) -/

/-- BrowserMCPServer.list_tools (browser_server.py lines 122-172). -/
def browserTools : List MCPTool :=
  [⟨"browser.perform_google_search", "Perform Google search; returns top results (title + link).",
    objSchema [("query", propStr),
      ("count", JVal.obj [("type", JVal.str "integer"), ("minimum", JVal.nat 1), ("maximum", JVal.nat 20)])] ["query"]⟩,
   ⟨"browser.perform_bing_search", "Perform Bing search; returns top results (title + link).",
    objSchema [("query", propStr),
      ("count", JVal.obj [("type", JVal.str "integer"), ("minimum", JVal.nat 1), ("maximum", JVal.nat 20)])] ["query"]⟩,
   ⟨"browser.browse_website", "Visit a URL and extract cleaned text snippet and title.",
    objSchema [("url", propStr),
      ("max_chars", JVal.obj [("type", JVal.str "integer"), ("minimum", JVal.nat 100), ("maximum", JVal.nat 10000)])] ["url"]⟩,
   ⟨"browser.fetch_metadata", "Fetch page metadata: title, meta description, open graph tags.",
    objSchema [("url", propStr)] ["url"]⟩,
   ⟨"browser.extract_links", "Extract links from the page (normalized absolute URLs).",
    objSchema [("url", propStr),
      ("max_links", JVal.obj [("type", JVal.str "integer"), ("minimum", JVal.nat 1), ("maximum", JVal.nat 100)])] ["url"]⟩,
   ⟨"browser.take_screenshot", "Take a PNG screenshot of the page and return Base64-encoded bytes.",
    objSchema [("url", propStr), ("full_page", propBool)] ["url"]⟩,
   ⟨"browser.head_request", "Perform a HEAD request to check status and content-type (faster than full render).",
    objSchema [("url", propStr)] ["url"]⟩]

/-- BrowserMCPServer (browser_server.py lines 115-174): name "Browser"; it
overrides execute_tool as a coroutine function (async def, line 174) and does
not override async_execute_tool.  Its Playwright/network body is an oracle. -/
def browserServer (exec : String → JVal → PyOutcome) : Server :=
  { name := "Browser"
    list_tools := .ok browserTools
    asyncOverride := Option.none
    syncOverride := some exec }

/-- GitHubMCPServer.list_tools (github_server.py lines 151-166). -/
def githubTools : List MCPTool :=
  [⟨"github.rate_limit", "Return current GitHub API rate limit info.",
    objSchemaNoReq [("github_token", propStr)]⟩,
   ⟨"github.list_repos", "List repositories for the authenticated user or a given owner.",
    objSchemaNoReq [("owner", propStr), ("limit", propInt), ("github_token", propStr)]⟩,
   ⟨"github.get_repo", "Get repo metadata (owner/repo).",
    objSchema [("repo_full_name", propStr), ("github_token", propStr)] ["repo_full_name"]⟩,
   ⟨"github.read_file", "Read a file from a repo at optional ref.",
    objSchema [("repo_full_name", propStr), ("path", propStr), ("ref", propStr),
               ("github_token", propStr)] ["repo_full_name", "path"]⟩,
   ⟨"github.create_or_update_file", "Create or update a file in a repo. Provide commit_message, path, content, optional branch/author.",
    objSchema [("repo_full_name", propStr), ("path", propStr), ("content", propStr),
               ("commit_message", propStr), ("branch", propStr), ("author_name", propStr),
               ("author_email", propStr), ("github_token", propStr)]
              ["repo_full_name", "path", "content", "commit_message"]⟩,
   ⟨"github.delete_file", "Delete a file in a repo (provide commit_message).",
    objSchema [("repo_full_name", propStr), ("path", propStr), ("commit_message", propStr),
               ("branch", propStr), ("github_token", propStr)]
              ["repo_full_name", "path", "commit_message"]⟩,
   ⟨"github.list_branches", "List branches for a repo.",
    objSchema [("repo_full_name", propStr), ("github_token", propStr)] ["repo_full_name"]⟩,
   ⟨"github.create_branch", "Create a branch from a base branch or commit SHA.",
    objSchema [("repo_full_name", propStr), ("new_branch", propStr), ("base", propStr),
               ("github_token", propStr)] ["repo_full_name", "new_branch", "base"]⟩,
   ⟨"github.list_issues", "List issues in a repo (state=open/closed/all).",
    objSchema [("repo_full_name", propStr), ("state", propStr), ("github_token", propStr)]
              ["repo_full_name"]⟩,
   ⟨"github.create_issue", "Create an issue (title, body, labels optional).",
    objSchema [("repo_full_name", propStr), ("title", propStr), ("body", propStr),
               ("labels", propArray), ("github_token", propStr)] ["repo_full_name", "title"]⟩,
   ⟨"github.create_pull_request", "Create a PR (head branch, base branch, title required).",
    objSchema [("repo_full_name", propStr), ("head", propStr), ("base", propStr),
               ("title", propStr), ("body", propStr), ("github_token", propStr)]
              ["repo_full_name", "head", "base", "title"]⟩,
   ⟨"github.get_commits", "List recent commits on a branch or sha (count optional).",
    objSchema [("repo_full_name", propStr), ("sha", propStr), ("count", propInt),
               ("github_token", propStr)] ["repo_full_name"]⟩]

/-- GitHubMCPServer (github_server.py lines 123-166): name "GitHub"; it defines
a synchronous execute_tool (line 168) and does not override async_execute_tool.
Its REST/PyGithub body is an oracle. -/
def githubServer (exec : String → JVal → PyOutcome) : Server :=
  { name := "GitHub"
    list_tools := .ok githubTools
    asyncOverride := Option.none
    syncOverride := some exec }

/-! ## Host server (backend/mcp_host_server.py) -/

/-- HostQuery (mcp_host_server.py lines 182-184). -/
structure HostQuery where
  user_query : String
  session_id : String

/-- What the /query endpoint produces: a normal HostResponse, a raised
HTTPException (FastAPI renders it as an error status with a detail message), or
an exception that escaped the handler (FastAPI turns it into a bare 500). -/
inductive HostOutcome where
  | response (final_answer : String) (tool_calls_executed : List JVal)
  | httpError (status : Nat) (detail : String)
  | raised (msg : String)

/-- Calls the request pipeline makes on its collaborators, in order. -/
inductive HostEvent where
  | listToolsCall (server : String)
  | llmSelectCall
  | heuristicSelectCall
  | runToolCall (server : String) (tool : Option String)
  | chatCall
deriving DecidableEq

/-- The selected tool call as a parsed decision dict:
keys "server_name"/"tool_name" (absent modelled as Option.none) and "args". -/
structure Decision where
  server_name : Option String
  tool_name : Option String
  args : JVal

/-- The configured google.generativeai collaborator (present when HAVE_GENAI
and ACTIVE_MODEL_NAME are set).  `selectTool` models llm_select_tool's parsed
output (mcp_host_server.py lines 228-262: None on any failure, empty output, or
no-tool answer; otherwise the parsed decision).  `summarize` models the model
call in generate_final_answer (lines 308-315; Option.none means it raised and
the deterministic fallback runs).  `chat` models the chat-mode model call
(lines 399-402; an error carries the exception message). -/
structure LLMConfig where
  selectTool : String → List MCPTool → Option Decision
  summarize : String → JVal → Option String
  chat : String → Except String String

mutual

/-- json.dumps with Python's default separators; string escaping is not
modelled (no value compared by a theorem needs escapes). -/
def jsonDumps : JVal → String
  | .str s => "\"" ++ s ++ "\""
  | .nat n => toString n
  | .bool b => if b then "true" else "false"
  | .none => "null"
  | .list xs => "[" ++ jsonDumpsList xs ++ "]"
  | .obj kvs => "\x7b" ++ jsonDumpsObj kvs ++ "\x7d"

/-- Comma-joined rendering of a list of values. -/
def jsonDumpsList : List JVal → String
  | [] => ""
  | [x] => jsonDumps x
  | x :: y :: rest => jsonDumps x ++ ", " ++ jsonDumpsList (y :: rest)

/-- Comma-joined rendering of key-value pairs. -/
def jsonDumpsObj : List (String × JVal) → String
  | [] => ""
  | [(k, v)] => "\"" ++ k ++ "\": " ++ jsonDumps v
  | (k, v) :: p :: rest => "\"" ++ k ++ "\": " ++ jsonDumps v ++ ", " ++ jsonDumpsObj (p :: rest)

end

/-- Python str() of a modelled value (only reached for non-dict results). -/
def pyStr : JVal → String
  | .str s => s
  | v => jsonDumps v

/-- The deterministic fallback summary in generate_final_answer
(mcp_host_server.py lines 316-328). -/
def fallbackSummary (tool_result : JVal) : String :=
  match tool_result with
  | .obj kvs =>
    let summary := match jLookup kvs "result" with
      | some v => v
      | Option.none => JVal.obj kvs
    "Tool execution finished. Output (truncated): " ++ pyTake (jsonDumps summary) 1000
  | v => pyStr v

/-- generate_final_answer (mcp_host_server.py lines 305-328): LLM-backed
summary when configured and successful, else the deterministic fallback. -/
def generate_final_answer (llm : Option LLMConfig) (user_query : String)
    (tool_result : JVal) : String :=
  match llm with
  | some L =>
    match L.summarize user_query tool_result with
    | some txt => txt
    | Option.none => fallbackSummary tool_result
  | Option.none => fallbackSummary tool_result

/-- Token after the first occurrence of `marker` in `q`: Python
`q.split(marker)[1].strip().split()[0]`; Option.none models the IndexError when
nothing follows the marker. -/
def pathTokenAfter (q marker : String) : Option String :=
  match (pySplitOn q marker).get? 1 with
  | Option.none => Option.none
  | some seg => (pyWords (pyStrip seg)).head?

/-- The read-file rule of the heuristic (mcp_host_server.py lines 271-282); an
IndexError in the crude token extraction escapes the selector (there is no
try/except around this branch). -/
def heuristicReadFile (q : String) : Except PyExn (Option Decision) :=
  if pyContains q " path " || pyContains q "path:" then
    let marker := if pyContains q "path:" then "path:" else "path"
    match pathTokenAfter q marker with
    | some tok =>
      .ok (some ⟨some "filesystem", some "filesystem.read_file",
                 JVal.obj [("path", JVal.str tok)]⟩)
    | Option.none => .error (.otherError "IndexError: list index out of range")
  else .ok Option.none

/-- The token loop of the github rule (mcp_host_server.py lines 286-297); here
the extraction is inside try/except Exception: continue. -/
def heuristicGithubLoop (q : String) : List String → Option Decision
  | [] => Option.none
  | t :: rest =>
    if pyContains t "/" && (pySplitOn t "/").length == 2 then
      if pyContains q "path:" then
        match pathTokenAfter q "path:" with
        | some tok =>
          some ⟨some "github", some "github.read_file",
                JVal.obj [("repo_full_name", JVal.str t), ("path", JVal.str tok)]⟩
        | Option.none => heuristicGithubLoop q rest
      else heuristicGithubLoop q rest
    else heuristicGithubLoop q rest

/-- heuristic_select_tool (mcp_host_server.py lines 265-299): ordered keyword
rules over the lowercased query; first match wins, default None. -/
def heuristic_select_tool (user_query : String) (_available_tools : List MCPTool) :
    Except PyExn (Option Decision) :=
  let q := pyLower user_query
  if ["search", "google", "bing", "news", "look up", "find"].any (fun w => pyContains q w) then
    .ok (some ⟨some "browser", some "browser.perform_google_search",
               JVal.obj [("query", JVal.str user_query)]⟩)
  else if ["read file", "open file", "show file", "cat file"].any (fun w => pyContains q w) then
    heuristicReadFile q
  else if ["repo", "github", "file in repo", "read repo"].any (fun w => pyContains q w) then
    .ok (heuristicGithubLoop q (pyWords q))
  else .ok Option.none

/-- The server-name inference of the auto-correct step (mcp_host_server.py
lines 365-371), applied when the decision's server_name is None. -/
def normalizeServerName (server_name tool_name : Option String) : Option String :=
  match server_name with
  | some s => some s
  | Option.none =>
    match tool_name with
    | some t =>
      if t != "" && pyStartsWith t "filesystem." then some "filesystem"
      else if t != "" && pyStartsWith t "browser." then some "browser"
      else if t != "" && pyStartsWith t "github." then some "github"
      else Option.none
    | Option.none => Option.none

/-- The tool-name prefix normalization (mcp_host_server.py lines 374-375). -/
def normalizeToolName (server_name tool_name : Option String) : Option String :=
  match server_name, tool_name with
  | some sv, some t =>
    if sv != "" && t != "" && !pyStartsWith t (sv ++ ".") then
      some (sv ++ "." ++ afterFirstDot t)
    else tool_name
  | _, _ => tool_name

/-- Lookup in the CONNECTED_SERVERS registry dict. -/
def dictGet (registry : List (String × Server)) (k : String) : Option Server :=
  (registry.find? (fun p => p.1 == k)).map (fun p => p.2)

/-- Python dict assignment `d[k] = v`: update in place when the key exists,
else append. -/
def dictSet (d : List (String × Server)) (k : String) (v : Server) :
    List (String × Server) :=
  if d.any (fun p => p.1 == k) then d.map (fun p => if p.1 == k then (k, v) else p)
  else d ++ [(k, v)]

/-- Registration of a provider as performed by load_tools (mcp_host_server.py
line 141): CONNECTED_SERVERS[key] = instance, a plain dict assignment. -/
def registerServer (registry : List (String × Server)) (key : String) (inst : Server) :
    List (String × Server) := dictSet registry key inst

/-- The flat tool aggregation in process_user_query (mcp_host_server.py lines
345-350): extend with each provider's tools, a provider whose list_tools raises
contributes nothing. -/
def availableTools (registry : List (String × Server)) : List MCPTool :=
  registry.foldr
    (fun p acc => (match p.2.list_tools with | .ok ts => ts | .error _ => []) ++ acc) []

/-- The t.dict() rendering of a tool descriptor. -/
def toolDict (t : MCPTool) : JVal :=
  JVal.obj [("name", JVal.str t.name), ("description", JVal.str t.description),
            ("parameters", t.parameters)]

/-- The /tools endpoint list_all_tools (mcp_host_server.py lines 415-424): per
provider, its tool dicts, or the error marker dict when list_tools raises. -/
def list_all_tools (registry : List (String × Server)) : List (String × JVal) :=
  registry.map (fun p =>
    match p.2.list_tools with
    | .ok ts => (p.1, JVal.list (ts.map toolDict))
    | .error _ => (p.1, JVal.obj [("error_listing_tools", JVal.bool true)]))

/-- The health bypass test (mcp_host_server.py line 338). -/
def isHealthBypass (q : HostQuery) : Bool :=
  q.session_id == "health-check" ||
    ["status check", "host status check", "health check"].contains (pyLower q.user_query)

/-- The tool record's "tool" field (None when the decision had no tool name). -/
def strOfOptTool : Option String → JVal
  | some t => JVal.str t
  | Option.none => JVal.none

/-- Message of a modelled exception. -/
def pyExnMsg : PyExn → String
  | .valueError m => m
  | .otherError m => m

/-- server.run_tool called with the normalized tool name, which is None when
the decision carried none: no tool's (string) name equals None, so run_tool
takes its 404 branch with None rendered into the message. -/
def dispatchRun (haveJS : Bool) (jsValidate : JVal → JVal → Option String)
    (srv : Server) (tool_name : Option String) (args : JVal) :
    Except ToolExecutionError JVal × List Invocation :=
  match tool_name with
  | some t => run_tool haveJS jsValidate srv t args
  | Option.none =>
    match srv.list_tools with
    | .error e => (.error ⟨e, some 500, Option.none⟩, [])
    | .ok _ =>
      (.error ⟨"Tool 'None' not found on server '" ++ srv.name ++ "'", some 404, Option.none⟩, [])

/-- Normalization, registry check, dispatch and summarization for a truthy
decision (mcp_host_server.py lines 359-395). -/
def afterSelect (registry : List (String × Server)) (llm : Option LLMConfig)
    (haveJS : Bool) (jsValidate : JVal → JVal → Option String) (q : HostQuery)
    (d : Decision) (events : List HostEvent) : HostOutcome × List HostEvent :=
  let args := pyOr d.args (JVal.obj [])
  let sv? := normalizeServerName d.server_name d.tool_name
  let tn? := normalizeToolName sv? d.tool_name
  match sv? with
  | Option.none => (.response "Server 'None' not found." [], events)
  | some sv =>
    match dictGet registry sv with
    | Option.none => (.response ("Server '" ++ sv ++ "' not found.") [], events)
    | some srv =>
      let events2 := events ++ [HostEvent.runToolCall sv tn?]
      match dispatchRun haveJS jsValidate srv tn? args with
      | (.ok v, _) =>
        let finalText := generate_final_answer llm q.user_query v
        let record := JVal.obj [("server", JVal.str sv), ("tool", strOfOptTool tn?),
                                ("args", args), ("result", v)]
        (.response finalText [record], events2)
      | (.error te, _) => (.response ("Tool error: " ++ te.message) [], events2)

/-- The chat-mode fallback when no tool was selected (mcp_host_server.py lines
397-407). -/
def chatBranch (llm : Option LLMConfig) (q : HostQuery) (events : List HostEvent) :
    HostOutcome × List HostEvent :=
  match llm with
  | some L =>
    match L.chat q.user_query with
    | .ok txt => (.response txt [], events ++ [HostEvent.chatCall])
    | .error m => (.response ("AI Error: " ++ m) [], events ++ [HostEvent.chatCall])
  | Option.none => (.response ("Chat fallback: " ++ q.user_query) [], events)

/-- The /query endpoint process_user_query (mcp_host_server.py lines 334-407):
health bypass, empty-registry HTTPException, tool aggregation, LLM or heuristic
selection, then dispatch or chat fallback.  The paired list records the calls
made on collaborators. -/
def process_user_query (registry : List (String × Server)) (llm : Option LLMConfig)
    (haveJS : Bool) (jsValidate : JVal → JVal → Option String) (q : HostQuery) :
    HostOutcome × List HostEvent :=
  if isHealthBypass q then (.response "Online" [], [])
  else if registry.isEmpty then (.httpError 503 "Backend running but no tools loaded.", [])
  else
    let tools := availableTools registry
    let events0 := registry.map (fun p => HostEvent.listToolsCall p.1)
    match llm with
    | some L =>
      let events1 := events0 ++ [HostEvent.llmSelectCall]
      match L.selectTool q.user_query tools with
      | some d => afterSelect registry llm haveJS jsValidate q d events1
      | Option.none =>
        let events2 := events1 ++ [HostEvent.heuristicSelectCall]
        match heuristic_select_tool q.user_query tools with
        | .error e => (.raised (pyExnMsg e), events2)
        | .ok (some d) => afterSelect registry llm haveJS jsValidate q d events2
        | .ok Option.none => chatBranch llm q events2
    | Option.none =>
      let events2 := events0 ++ [HostEvent.heuristicSelectCall]
      match heuristic_select_tool q.user_query tools with
      | .error e => (.raised (pyExnMsg e), events2)
      | .ok (some d) => afterSelect registry Option.none haveJS jsValidate q d events2
      | .ok Option.none => chatBranch Option.none q events2

/-! ## Concrete fixtures used by the witnesses and counterexamples -/

/-- A jsonschema oracle that accepts everything (only consulted when the
optional dependency is modelled as present). -/
def jsOracleNone : JVal → JVal → Option String := fun _ _ => Option.none

/-- A jsonschema oracle that rejects everything. -/
def jsOracleReject : JVal → JVal → Option String := fun _ _ => some "is not valid"

/-- A small concrete sandbox state: one file a.txt inside the sandbox root. -/
def fsOracle0 : FsOracle :=
  { pathExists := fun p => p == SANDBOX_DIR ++ "/a.txt" || p == SANDBOX_DIR
    isDir := fun p => p == SANDBOX_DIR
    readContent := fun _ => "hello world"
    sizeOf := fun _ => 11
    mtimeOf := fun _ => 5
    ctimeOf := fun _ => 4
    entries := fun _ => [("a.txt", false, some 11)]
    globMatch := fun _ _ => []
    rmdirOk := fun _ => false }

/-- A GitHub network oracle standing for the REST/PyGithub body. -/
def ghExecStub : String → JVal → PyOutcome := fun _ _ => PyOutcome.exn "network unavailable"

/-- A browser automation oracle standing for the Playwright body. -/
def browserExecStub : String → JVal → PyOutcome := fun _ _ => PyOutcome.exn "browser unavailable"

/-- A provider whose list_tools raises (for the partial-failure scenarios). -/
def failingServer : Server :=
  { name := "Browser"
    list_tools := .error "playwright launch failed"
    asyncOverride := Option.none
    syncOverride := Option.none }

/-- A configured planner that always selects the github.read_file tool on the
github provider (for the unregistered-provider scenario). -/
def llmGithubStub : LLMConfig :=
  { selectTool := fun _ _ =>
      some ⟨some "github", some "github.read_file",
            JVal.obj [("repo_full_name", JVal.str "octo/demo"), ("path", JVal.str "README.md")]⟩
    summarize := fun _ _ => Option.none
    chat := fun s => .ok s }

/-- The "code" field of a result dict. -/
def errCode (v : JVal) : Option JVal :=
  match v with
  | .obj kvs => jLookup kvs "code"
  | _ => Option.none

/-- Whether a result dict carries an "error" field. -/
def hasErrorKey (v : JVal) : Bool := jHasKey v "error"

/-- A filesystem tool outcome that is a code-400 error dict produced with an
empty effect trace (the shape the sandbox validation produces). -/
def rejected400 (r : JVal × List FsOp) : Prop :=
  hasErrorKey r.1 = true ∧ errCode r.1 = some (JVal.nat 400) ∧ r.2 = []

/-- A run_tool outcome that is a code-400 ToolExecutionError with no execute
implementation invoked. -/
def run_tool_rejected_400 (r : Except ToolExecutionError JVal × List Invocation) : Prop :=
  (match r.1 with
   | .error e => e.code = some 400
   | .ok _ => False) ∧ r.2 = []

/-- The path-argument violations named by the sandbox validation: empty (after
stripping), absolute, containing a ".." segment, or resolving outside the
sandbox root (with separators normalized as the source does). -/
def pathViolation (s : String) : Prop :=
  pyStrip s = "" ∨
  pyStartsWith (pyReplace (pyStrip s) "\\" "/") "/" = true ∨
  (pySplitOn (pyReplace (pyStrip s) "\\" "/") "/").contains ".." = true ∨
  is_within_sandbox (resolveUnder SANDBOX_DIR (pyReplace (pyStrip s) "\\" "/")) = false

/-! ## Helper lemmas -/

theorem listIsPrefix_append (l t : List Char) : listIsPrefix l (l ++ t) = true := by
  induction l with
  | nil => rfl
  | cons a as ih => simp [listIsPrefix, ih]

theorem listIsPrefix_total (a b c : List Char) (ha : listIsPrefix a c = true)
    (hb : listIsPrefix b c = true) :
    listIsPrefix a b = true ∨ listIsPrefix b a = true := by
  induction c generalizing a b with
  | nil =>
    cases a with
    | nil => exact Or.inl rfl
    | cons x xs => simp [listIsPrefix] at ha
  | cons y ys ih =>
    cases a with
    | nil => exact Or.inl rfl
    | cons x xs =>
      cases b with
      | nil => exact Or.inr rfl
      | cons z zs =>
        simp [listIsPrefix] at ha hb ⊢
        obtain ⟨hx, ha2⟩ := ha
        obtain ⟨hz, hb2⟩ := hb
        subst hx; subst hz
        simpa using ih xs zs ha2 hb2

theorem strData_append (a b : String) : (a ++ b).data = a.data ++ b.data := by
  cases a; cases b; rfl

theorem pyStartsWith_append (pre t : String) : pyStartsWith (pre ++ t) pre = true := by
  simp [pyStartsWith, strData_append, listIsPrefix_append]

theorem not_prefix_of_other (a b t : List Char) (hb : listIsPrefix b t = true)
    (h1 : listIsPrefix a b = false) (h2 : listIsPrefix b a = false) :
    listIsPrefix a t = false := by
  cases ha : listIsPrefix a t with
  | false => rfl
  | true =>
    rcases listIsPrefix_total a b t ha hb with h | h
    · simp [h1] at h
    · simp [h2] at h

theorem startsWith_ne_empty (t pre : String) (h : pyStartsWith t pre = true)
    (hpre : pre.data ≠ []) : (t != "") = true := by
  cases ht : t.data with
  | nil =>
    unfold pyStartsWith at h
    rw [ht] at h
    cases hd : pre.data with
    | nil => exact absurd hd hpre
    | cons c cs => rw [hd] at h; simp [listIsPrefix] at h
  | cons c cs =>
    have hne : t ≠ "" := by
      intro he
      rw [he] at ht
      exact nomatch ht
    simpa using hne

theorem infer_filesystem (t : String) (h : pyStartsWith t "filesystem." = true) :
    normalizeServerName Option.none (some t) = some "filesystem" := by
  have hne := startsWith_ne_empty t "filesystem." h (by decide)
  simp [normalizeServerName, hne, h]

theorem infer_browser (t : String) (h : pyStartsWith t "browser." = true) :
    normalizeServerName Option.none (some t) = some "browser" := by
  have hne := startsWith_ne_empty t "browser." h (by decide)
  have hfil : pyStartsWith t "filesystem." = false :=
    not_prefix_of_other "filesystem.".data "browser.".data t.data h (by decide) (by decide)
  simp [normalizeServerName, hne, h, hfil]

theorem infer_github (t : String) (h : pyStartsWith t "github." = true) :
    normalizeServerName Option.none (some t) = some "github" := by
  have hne := startsWith_ne_empty t "github." h (by decide)
  have hfil : pyStartsWith t "filesystem." = false :=
    not_prefix_of_other "filesystem.".data "github.".data t.data h (by decide) (by decide)
  have hbro : pyStartsWith t "browser." = false :=
    not_prefix_of_other "browser.".data "github.".data t.data h (by decide) (by decide)
  simp [normalizeServerName, hne, h, hfil, hbro]

theorem tool_prefix_invariant (sv2 t : String) (hsv : sv2 ≠ "") (ht : t ≠ "") :
    ∃ t2 : String, normalizeToolName (some sv2) (some t) = some t2 ∧
      pyStartsWith t2 (sv2 ++ ".") = true := by
  cases hpre : pyStartsWith t (sv2 ++ ".") with
  | true => exact ⟨t, by simp [normalizeToolName, hpre], hpre⟩
  | false =>
    refine ⟨sv2 ++ "." ++ afterFirstDot t, ?_, ?_⟩
    · simp [normalizeToolName, hpre, hsv, ht]
    · exact pyStartsWith_append (sv2 ++ ".") (afterFirstDot t)

theorem find?_map_update (l : List (String × Server)) (k : String) (v : Server)
    (h : l.any (fun p => p.1 == k) = true) :
    (l.map (fun p => if p.1 == k then (k, v) else p)).find? (fun p => p.1 == k) = some (k, v) := by
  induction l with
  | nil => simp at h
  | cons a rest ih =>
    cases ha : (a.1 == k) with
    | true =>
      rw [List.map_cons, if_pos ha, List.find?_cons_of_pos]
      simp
    | false =>
      rw [List.map_cons, if_neg (by simp [ha]), List.find?_cons_of_neg _ (by simp [ha])]
      have hrest : rest.any (fun p => p.1 == k) = true := by
        simpa [List.any_cons, ha] using h
      exact ih hrest

theorem find?_append_last (l : List (String × Server)) (k : String) (v : Server)
    (h : l.any (fun p => p.1 == k) = false) :
    (l ++ [(k, v)]).find? (fun p => p.1 == k) = some (k, v) := by
  induction l with
  | nil =>
    rw [List.nil_append, List.find?_cons_of_pos]
    simp
  | cons a rest ih =>
    simp only [List.any_cons, Bool.or_eq_false_iff] at h
    rw [List.cons_append, List.find?_cons_of_neg _ (by simp [h.1])]
    exact ih h.2

theorem dictGet_dictSet (d : List (String × Server)) (k : String) (v : Server) :
    dictGet (dictSet d k v) k = some v := by
  unfold dictGet dictSet
  cases h : d.any (fun p => p.1 == k) with
  | true =>
    rw [if_pos rfl, find?_map_update d k v h]
    rfl
  | false =>
    rw [if_neg (by simp), find?_append_last d k v h]
    rfl

theorem isEmpty_false_of_ne_nil {α : Type} (l : List α) (hl : l ≠ []) : l.isEmpty = false := by
  cases l with
  | nil => exact absurd rfl hl
  | cons a t => rfl

theorem getRequired_pyOr (p : JVal) : getRequired (pyOr p (JVal.obj [])) = getRequired p := by
  unfold pyOr
  cases hp : pyTruthy p with
  | true => rw [if_pos rfl]
  | false =>
    rw [if_neg (by simp)]
    cases p with
    | obj kvs =>
      have h2 : kvs = [] := by
        have h1 : kvs.isEmpty = true := by simpa [pyTruthy] using hp
        exact List.isEmpty_iff.mp h1
      rw [h2]
    | str s => simp [getRequired, jLookup]
    | nat n => simp [getRequired, jLookup]
    | bool b => simp [getRequired, jLookup]
    | none => simp [getRequired, jLookup]
    | list xs => simp [getRequired, jLookup]

theorem jHasKey_pyOr (args : JVal) (r : String) :
    jHasKey (pyOr args (JVal.obj [])) r = jHasKey args r := by
  unfold pyOr
  cases h : pyTruthy args with
  | true => rw [if_pos rfl]
  | false =>
    rw [if_neg (by simp)]
    cases args with
    | obj kvs =>
      have h2 : kvs = [] := by
        have h1 : kvs.isEmpty = true := by simpa [pyTruthy] using h
        exact List.isEmpty_iff.mp h1
      rw [h2]
    | str s => simp [jHasKey]
    | nat n => simp [jHasKey]
    | bool b => simp [jHasKey]
    | none => simp [jHasKey]
    | list xs => simp [jHasKey]

theorem pyOr_of_not_obj (args : JVal) (h : jIsObj args = false)
    (hobj : jIsObj (pyOr args (JVal.obj [])) = true) :
    pyOr args (JVal.obj []) = JVal.obj [] := by
  unfold pyOr at hobj ⊢
  cases ht : pyTruthy args with
  | true =>
    rw [ht, if_pos rfl] at hobj
    rw [hobj] at h
    exact nomatch h
  | false => rw [if_neg (by simp)]

theorem validate_args_rejects (haveJS : Bool) (jsValidate : JVal → JVal → Option String)
    (hjs : ∀ a sch, jIsObj a = true →
      (getRequired sch).filter (fun r => !jHasKey a r) ≠ [] → (jsValidate a sch).isSome = true)
    (tool : MCPTool) (args : JVal)
    (hreq : getRequired tool.parameters ≠ [])
    (hbad : jIsObj args = false ∨
      (getRequired tool.parameters).filter (fun r => !jHasKey args r) ≠ []) :
    ∃ e : ToolExecutionError,
      validate_args haveJS jsValidate tool (pyOr args (JVal.obj [])) = .error e ∧
        e.code = some 400 := by
  by_cases hobj : jIsObj (pyOr args (JVal.obj [])) = true
  case neg =>
    have hobj2 : jIsObj (pyOr args (JVal.obj [])) = false := by
      revert hobj; cases jIsObj (pyOr args (JVal.obj [])) <;> simp
    exact ⟨⟨"Tool arguments must be an object/dict", some 400, Option.none⟩,
      by simp [validate_args, hobj2], rfl⟩
  case pos =>
    have hmiss : (getRequired tool.parameters).filter
        (fun r => !jHasKey (pyOr args (JVal.obj [])) r) ≠ [] := by
      have hcong : (getRequired tool.parameters).filter
          (fun r => !jHasKey (pyOr args (JVal.obj [])) r) =
          (getRequired tool.parameters).filter (fun r => !jHasKey args r) := by
        apply List.filter_congr
        intro x _
        rw [jHasKey_pyOr]
      rcases hbad with h | h
      · have ha : pyOr args (JVal.obj []) = JVal.obj [] := pyOr_of_not_obj args h hobj
        rw [ha]
        have hself : (getRequired tool.parameters).filter (fun r => !jHasKey (JVal.obj []) r) =
            getRequired tool.parameters := by
          apply List.filter_eq_self.mpr
          intro a _
          simp [jHasKey]
        rw [hself]
        exact hreq
      · rw [hcong]; exact h
    cases hjsb : (haveJS && jIsObj (pyOr tool.parameters (JVal.obj []))) with
    | true =>
      have hreq2 : (getRequired (pyOr tool.parameters (JVal.obj []))).filter
          (fun r => !jHasKey (pyOr args (JVal.obj [])) r) ≠ [] := by
        rw [getRequired_pyOr]; exact hmiss
      have hsome := hjs (pyOr args (JVal.obj [])) (pyOr tool.parameters (JVal.obj [])) hobj hreq2
      obtain ⟨ve, hve⟩ := Option.isSome_iff_exists.mp hsome
      refine ⟨⟨"Argument validation failed: " ++ ve, some 400, some ve⟩, ?_, rfl⟩
      simp [validate_args, hobj, hjsb, hve]
    | false =>
      have hreqb : (getRequired (pyOr tool.parameters (JVal.obj []))).isEmpty = false := by
        apply isEmpty_false_of_ne_nil
        rw [getRequired_pyOr]
        exact hreq
      have hmissb : ((getRequired (pyOr tool.parameters (JVal.obj []))).filter
          (fun r => !jHasKey (pyOr args (JVal.obj [])) r)).isEmpty = false := by
        apply isEmpty_false_of_ne_nil
        rw [getRequired_pyOr]
        exact hmiss
      refine ⟨⟨"Missing required parameters: " ++
        reprStrList ((getRequired (pyOr tool.parameters (JVal.obj []))).filter
          (fun r => !jHasKey (pyOr args (JVal.obj [])) r)), some 400, Option.none⟩, ?_, rfl⟩
      simp [validate_args, hobj, hjsb, hreqb, hmissb]

theorem get_safe_path_violation (s : String) (hv : pathViolation s) :
    ∃ m, get_safe_path (JVal.str s) = .error (.valueError m) := by
  by_cases hs0 : s = ""
  · subst hs0
    exact ⟨"Path is required and cannot be empty.", rfl⟩
  · have htr : pyTruthy (JVal.str s) = true := by
      simp [pyTruthy, hs0]
    by_cases hstrip : pyStrip s = ""
    · refine ⟨"Path is required and cannot be empty.", ?_⟩
      simp [get_safe_path, htr, hstrip]
    · cases habs : pyStartsWith (pyReplace (pyStrip s) "\\" "/") "/" with
      | true =>
        refine ⟨"Absolute paths are not allowed. Provide a sandbox-relative path.", ?_⟩
        simp [get_safe_path, htr, hstrip, habs]
      | false =>
        cases hdots : (pySplitOn (pyReplace (pyStrip s) "\\" "/") "/").contains ".." with
        | true =>
          have hdots2 : ".." ∈ pySplitOn (pyReplace (pyStrip s) "\\" "/") "/" := by
            simpa using hdots
          refine ⟨"Path traversal detected (.. not allowed).", ?_⟩
          simp [get_safe_path, htr, hstrip, habs, hdots2]
        | false =>
          have hdots2 : ".." ∉ pySplitOn (pyReplace (pyStrip s) "\\" "/") "/" := by
            simpa using hdots
          cases hwith : is_within_sandbox
              (resolveUnder SANDBOX_DIR (pyReplace (pyStrip s) "\\" "/")) with
          | false =>
            refine ⟨"Resolved path is outside the sandbox and is forbidden.", ?_⟩
            simp [get_safe_path, htr, hstrip, habs, hdots2, hwith, ALLOWED_TOPDIRS]
          | true =>
            exfalso
            rcases hv with h | h | h | h
            · exact hstrip h
            · rw [habs] at h; exact nomatch h
            · rw [hdots] at h; exact nomatch h
            · rw [hwith] at h; exact nomatch h

/-! ## Claim theorems -/

/-- C1 (code bug): run_tool never dispatches to a synchronous execute_tool.
The guard at mcp_core.py line 116 compares a bound method against the class
function and is always true, so the call always goes to the resolved
async_execute_tool attribute; FilesystemMCPServer and GitHubMCPServer inherit
the base one, whose NotImplementedError is wrapped into a code-500
ToolExecutionError — even though the tool exists, the arguments validate, and
the synchronous execute_tool would have returned a code-200 payload. -/
theorem C1_sync_execute_tool_never_dispatched :
    run_tool false jsOracleNone (filesystemServer fsOracle0) "filesystem.file_exists"
        (JVal.obj [("path", JVal.str "a.txt")]) =
      (.error ⟨"async_execute_tool not implemented (async)", some 500, Option.none⟩,
       [Invocation.baseAsync "filesystem.file_exists"]) ∧
    fs_execute_tool fsOracle0 "filesystem.file_exists" (JVal.obj [("path", JVal.str "a.txt")]) =
      (JVal.obj [("path", JVal.str "a.txt"), ("exists", JVal.bool true), ("code", JVal.nat 200)],
       []) ∧
    run_tool false jsOracleNone (githubServer ghExecStub) "github.rate_limit" (JVal.obj []) =
      (.error ⟨"async_execute_tool not implemented (async)", some 500, Option.none⟩,
       [Invocation.baseAsync "github.rate_limit"]) :=
  ⟨rfl, rfl, rfl⟩

/-- C2: for a tool name absent from the provider's list_tools() output,
run_tool fails with the 404 ToolExecutionError and no execute implementation is
ever invoked (the invocation trace is empty). -/
theorem C2_unknown_tool_is_404_and_never_invoked (haveJS : Bool)
    (jsValidate : JVal → JVal → Option String) (s : Server) (ts : List MCPTool)
    (hls : s.list_tools = .ok ts) (tool_name : String)
    (habs : ∀ t ∈ ts, t.name ≠ tool_name) (args : JVal) :
    run_tool haveJS jsValidate s tool_name args =
      (.error ⟨"Tool '" ++ tool_name ++ "' not found on server '" ++ s.name ++ "'",
               some 404, Option.none⟩, []) := by
  have hfind : ts.find? (fun t => t.name == tool_name) = Option.none := by
    apply List.find?_eq_none.mpr
    intro t ht
    simpa using habs t ht
  simp [run_tool, hls, hfind]

/-- Closed instance of the C2 theorem at a concrete unknown tool. -/
theorem C2_unknown_tool_witness :
    run_tool true jsOracleReject (filesystemServer fsOracle0) "filesystem.nope" (JVal.obj []) =
      (.error ⟨"Tool 'filesystem.nope' not found on server 'Filesystem'", some 404, Option.none⟩,
       []) :=
  C2_unknown_tool_is_404_and_never_invoked true jsOracleReject _ filesystemTools rfl
    "filesystem.nope" (by decide) (JVal.obj [])

/-- C4 (counterexample): with an empty registry and a non-health query the
endpoint does not return a normal response carrying a failure message — it
raises HTTPException 503 (mcp_host_server.py lines 341-342). -/
theorem C4_counterexample :
    process_user_query [] Option.none false jsOracleNone ⟨"hello", "s1"⟩ =
      (.httpError 503 "Backend running but no tools loaded.", []) := rfl

/-- C4 (amended): every non-health-check request against an empty registry
raises HTTPException 503 with detail "Backend running but no tools loaded.",
and neither the selector nor any other collaborator is invoked. -/
theorem C4_empty_registry_raises_http_503 (llm : Option LLMConfig) (haveJS : Bool)
    (jsValidate : JVal → JVal → Option String) (q : HostQuery)
    (hq : isHealthBypass q = false) :
    process_user_query [] llm haveJS jsValidate q =
      (.httpError 503 "Backend running but no tools loaded.", []) := by
  simp [process_user_query, hq]

/-- Closed instance of the amended C4 theorem. -/
theorem C4_empty_registry_witness :
    process_user_query [] (some llmGithubStub) true jsOracleReject ⟨"what is up", "s2"⟩ =
      (.httpError 503 "Backend running but no tools loaded.", []) :=
  C4_empty_registry_raises_http_503 (some llmGithubStub) true jsOracleReject _ (by decide)

/-- C7 (counterexample): the heuristic selector maps "list files in ." to no
tool at all — not to the claimed filesystem.list_dir call (none of the ordered
keyword rules matches this text). -/
theorem C7_counterexample :
    heuristic_select_tool "list files in ." filesystemTools = .ok Option.none := rfl

/-- C7 (amended): for the request "list files in ." the heuristic fallback
selector returns None (no tool applies) whatever the available tool catalogue
is; it has no list-directory rule, so the request falls through to chat mode. -/
theorem C7_heuristic_returns_none (tools : List MCPTool) :
    heuristic_select_tool "list files in ." tools = .ok Option.none := rfl

/-- C10: a request whose session_id is "health-check" or whose lowercased text
is one of the status phrases short-circuits to final_answer "Online" with no
tool calls and no collaborator interaction, registry contents notwithstanding. -/
theorem C10_health_bypass_short_circuits (registry : List (String × Server))
    (llm : Option LLMConfig) (haveJS : Bool) (jsValidate : JVal → JVal → Option String)
    (q : HostQuery) (hq : isHealthBypass q = true) :
    process_user_query registry llm haveJS jsValidate q = (.response "Online" [], []) := by
  simp [process_user_query, hq]

/-- Closed instance of the C10 theorem with an empty registry. -/
theorem C10_health_bypass_witness :
    process_user_query [] Option.none false jsOracleNone ⟨"Status Check", "s1"⟩ =
      (.response "Online" [], []) :=
  C10_health_bypass_short_circuits [] Option.none false jsOracleNone _ (by decide)

/-- C3: a tool call whose arguments are not a mapping or miss a schema-required
property is rejected with a code-400 ToolExecutionError strictly before any
execute implementation runs (for any jsonschema oracle that flags missing
required properties of object schemas, as the real library does). -/
theorem C3_invalid_args_rejected_before_execute (haveJS : Bool)
    (jsValidate : JVal → JVal → Option String)
    (hjs : ∀ a sch, jIsObj a = true →
      (getRequired sch).filter (fun r => !jHasKey a r) ≠ [] → (jsValidate a sch).isSome = true)
    (s : Server) (ts : List MCPTool) (hls : s.list_tools = .ok ts)
    (tool_name : String) (tool : MCPTool)
    (hfind : ts.find? (fun t => t.name == tool_name) = some tool)
    (hreq : getRequired tool.parameters ≠ [])
    (args : JVal)
    (hbad : jIsObj args = false ∨
      (getRequired tool.parameters).filter (fun r => !jHasKey args r) ≠ []) :
    run_tool_rejected_400 (run_tool haveJS jsValidate s tool_name args) := by
  obtain ⟨e, he, hc⟩ := validate_args_rejects haveJS jsValidate hjs tool args hreq hbad
  simp only [run_tool, hls, hfind, he]
  exact ⟨hc, rfl⟩

/-- Closed instance of the C3 theorem: read_file without its required "path". -/
theorem C3_missing_required_witness :
    run_tool_rejected_400 (run_tool false jsOracleReject (filesystemServer fsOracle0)
      "filesystem.read_file" (JVal.obj [("max_chars", JVal.nat 5)])) :=
  C3_invalid_args_rejected_before_execute false jsOracleReject
    (by intro a sch _ _; rfl) _ filesystemTools rfl "filesystem.read_file" _ rfl
    (by decide) (JVal.obj [("max_chars", JVal.nat 5)]) (Or.inr (by decide))

/-- C5 (counterexample): registering a second provider under the already-taken
key "github" neither fails with a DuplicateProvider error nor leaves the
previously registered provider intact — the dict assignment replaces it (the
stored server is now the Filesystem one, not the GitHub one). -/
theorem C5_counterexample :
    (dictGet (registerServer (registerServer [] "github" (githubServer ghExecStub))
        "github" (filesystemServer fsOracle0)) "github").map Server.name =
      some "Filesystem" := rfl

/-- C5 (amended): registration is a plain dict assignment: registering under any
name, taken or not, succeeds and stores the new provider under that name, with
no duplicate detection anywhere. -/
theorem C5_register_overwrites (registry : List (String × Server)) (key : String)
    (inst : Server) : dictGet (registerServer registry key inst) key = some inst := by
  unfold registerServer
  exact dictGet_dictSet registry key inst

/-- C6 (counterexample): with one failing and two healthy providers, the /tools
aggregation maps the failing provider to the error-marker object, which is not
an empty list. -/
theorem C6_counterexample :
    list_all_tools [("filesystem", filesystemServer fsOracle0), ("browser", failingServer),
                    ("github", githubServer ghExecStub)] =
      [("filesystem", JVal.list (filesystemTools.map toolDict)),
       ("browser", JVal.obj [("error_listing_tools", JVal.bool true)]),
       ("github", JVal.list (githubTools.map toolDict))] ∧
    JVal.obj [("error_listing_tools", JVal.bool true)] ≠ JVal.list [] :=
  ⟨rfl, fun h => nomatch h⟩

/-- C6 (amended): when exactly one provider's list_tools raises, the /tools
aggregation keeps the healthy providers' tool lists unchanged and maps the
failing provider to the error-marker object (not an empty list), without
failing; the flat aggregation in the query pipeline drops the failing
provider's contribution entirely. -/
theorem C6_partial_failure_isolated (nA nB nC : String) (sA sB sC : Server)
    (ta tc : List MCPTool) (eb : String)
    (hA : sA.list_tools = .ok ta) (hB : sB.list_tools = .error eb)
    (hC : sC.list_tools = .ok tc) :
    list_all_tools [(nA, sA), (nB, sB), (nC, sC)] =
      [(nA, JVal.list (ta.map toolDict)),
       (nB, JVal.obj [("error_listing_tools", JVal.bool true)]),
       (nC, JVal.list (tc.map toolDict))] ∧
    availableTools [(nA, sA), (nB, sB), (nC, sC)] = ta ++ tc := by
  constructor
  · simp [list_all_tools, hA, hB, hC]
  · simp [availableTools, hA, hB, hC]

/-- Closed instance of the C6 theorem at concrete providers. -/
theorem C6_partial_failure_witness :
    list_all_tools [("filesystem", filesystemServer fsOracle0), ("browser", failingServer),
                    ("github", githubServer ghExecStub)] =
      [("filesystem", JVal.list (filesystemTools.map toolDict)),
       ("browser", JVal.obj [("error_listing_tools", JVal.bool true)]),
       ("github", JVal.list (githubTools.map toolDict))] ∧
    availableTools [("filesystem", filesystemServer fsOracle0), ("browser", failingServer),
                    ("github", githubServer ghExecStub)] = filesystemTools ++ githubTools :=
  C6_partial_failure_isolated "filesystem" "browser" "github" _ _ _ filesystemTools githubTools
    "playwright launch failed" rfl rfl rfl

/-- C8 (counterexample): a decision with provider "filesystem" and an empty
tool name passes through normalization unchanged, so after normalization the
provider is present but the tool name does not start with "filesystem.". -/
theorem C8_counterexample :
    normalizeServerName (some "filesystem") (some "") = some "filesystem" ∧
    normalizeToolName (some "filesystem") (some "") = some "" ∧
    pyStartsWith "" "filesystem." = false :=
  ⟨rfl, rfl, rfl⟩

/-- C8 (amended): the prefix inference fires for each recognizable prefix when
provider_name is missing; for decisions whose provider and tool names are
non-empty the normalized tool name starts with provider_name + "."; and a
normalized call naming an unregistered provider is answered at dispatch time
with a Server-not-found message and an empty execution trace. -/
theorem C8_normalization_amended
    (registry : List (String × Server)) (L : LLMConfig) (haveJS : Bool)
    (jsValidate : JVal → JVal → Option String) (q : HostQuery) (d : Decision) (sv : String)
    (hq : isHealthBypass q = false) (hne : registry ≠ [])
    (hsel : L.selectTool q.user_query (availableTools registry) = some d)
    (hsv : normalizeServerName d.server_name d.tool_name = some sv)
    (hreg : dictGet registry sv = Option.none) :
    process_user_query registry (some L) haveJS jsValidate q =
      (.response ("Server '" ++ sv ++ "' not found.") [],
       registry.map (fun p => HostEvent.listToolsCall p.1) ++ [HostEvent.llmSelectCall]) ∧
    (∀ t : String, pyStartsWith t "filesystem." = true →
      normalizeServerName Option.none (some t) = some "filesystem") ∧
    (∀ t : String, pyStartsWith t "browser." = true →
      normalizeServerName Option.none (some t) = some "browser") ∧
    (∀ t : String, pyStartsWith t "github." = true →
      normalizeServerName Option.none (some t) = some "github") ∧
    (∀ sv2 t : String, sv2 ≠ "" → t ≠ "" →
      ∃ t2 : String, normalizeToolName (some sv2) (some t) = some t2 ∧
        pyStartsWith t2 (sv2 ++ ".") = true) := by
  refine ⟨?_, infer_filesystem, infer_browser, infer_github, tool_prefix_invariant⟩
  have hne2 : registry.isEmpty = false := by
    cases registry with
    | nil => exact absurd rfl hne
    | cons a l => rfl
  simp only [process_user_query, hq, hne2, Bool.false_eq_true, if_false, hsel,
    afterSelect, hsv, hreg]

/-- Closed instance of the dispatch part of the C8 theorem: a decision naming
provider "github" while only "filesystem" and "browser" are registered. -/
theorem C8_unregistered_provider_witness :
    process_user_query [("filesystem", filesystemServer fsOracle0),
        ("browser", browserServer browserExecStub)] (some llmGithubStub) false jsOracleNone
        ⟨"read the repo file", "s3"⟩ =
      (.response "Server 'github' not found." [],
       [HostEvent.listToolsCall "filesystem", HostEvent.listToolsCall "browser",
        HostEvent.llmSelectCall]) :=
  (C8_normalization_amended
    [("filesystem", filesystemServer fsOracle0), ("browser", browserServer browserExecStub)]
    llmGithubStub false jsOracleNone ⟨"read the repo file", "s3"⟩
    ⟨some "github", some "github.read_file",
      JVal.obj [("repo_full_name", JVal.str "octo/demo"), ("path", JVal.str "README.md")]⟩
    "github" (by decide) (List.cons_ne_nil _ _) rfl rfl rfl).1

/-- C9: a filesystem tool invocation whose path argument (path, src or dst) is
empty, absolute, contains a ".." segment, or resolves outside the sandbox is
answered with a code-400 error dict and performs no filesystem effect at all
(for the size/limit arguments the branch parses before path validation, any
values that parse as integers). -/
theorem C9_sandbox_validation_rejects (fs : FsOracle) (kvs : List (String × JVal))
    (s : String) (hv : pathViolation s) :
    (jLookup kvs "path" = some (JVal.str s) →
      ((∃ n, pyInt (jGetD kvs "max_chars" (JVal.nat MAX_READ_CHARS)) = .ok n) →
        rejected400 (fs_execute_tool fs "filesystem.read_file" (JVal.obj kvs))) ∧
      ((∃ n, pyInt (jGetD kvs "max_bytes" (JVal.nat MAX_WRITE_BYTES)) = .ok n) →
        rejected400 (fs_execute_tool fs "filesystem.write_file" (JVal.obj kvs))) ∧
      ((∃ n, pyInt (jGetD kvs "max_append_bytes" (JVal.nat MAX_WRITE_BYTES)) = .ok n) →
        rejected400 (fs_execute_tool fs "filesystem.append_file" (JVal.obj kvs))) ∧
      rejected400 (fs_execute_tool fs "filesystem.list_dir" (JVal.obj kvs)) ∧
      rejected400 (fs_execute_tool fs "filesystem.make_directory" (JVal.obj kvs)) ∧
      rejected400 (fs_execute_tool fs "filesystem.file_exists" (JVal.obj kvs)) ∧
      rejected400 (fs_execute_tool fs "filesystem.delete" (JVal.obj kvs)) ∧
      rejected400 (fs_execute_tool fs "filesystem.get_metadata" (JVal.obj kvs)) ∧
      ((∃ n, pyInt (jGetD kvs "max_results" (JVal.nat 100)) = .ok n) →
        rejected400 (fs_execute_tool fs "filesystem.search_files" (JVal.obj kvs)))) ∧
    (jLookup kvs "src" = some (JVal.str s) →
      rejected400 (fs_execute_tool fs "filesystem.move" (JVal.obj kvs)) ∧
      rejected400 (fs_execute_tool fs "filesystem.copy" (JVal.obj kvs))) ∧
    (jLookup kvs "dst" = some (JVal.str s) →
      (∃ p, get_safe_path (jGetD kvs "src" (JVal.str "")) = .ok p) →
      rejected400 (fs_execute_tool fs "filesystem.move" (JVal.obj kvs)) ∧
      rejected400 (fs_execute_tool fs "filesystem.copy" (JVal.obj kvs))) := by
  obtain ⟨m, hm⟩ := get_safe_path_violation s hv
  refine ⟨?_, ?_, ?_⟩
  · intro hpath
    have hg : jGetD kvs "path" (JVal.str "") = JVal.str s := by simp [jGetD, hpath]
    refine ⟨?_, ?_, ?_, ?_, ?_, ?_, ?_, ?_, ?_⟩
    · rintro ⟨n, hn⟩
      show rejected400 (fsReadFile fs (JVal.obj kvs))
      simp only [fsReadFile, withArgsObj, hg, hn, hm]
      exact ⟨rfl, rfl, rfl⟩
    · rintro ⟨n, hn⟩
      show rejected400 (fsWriteFile fs (JVal.obj kvs))
      simp only [fsWriteFile, withArgsObj, hg, hn, hm]
      exact ⟨rfl, rfl, rfl⟩
    · rintro ⟨n, hn⟩
      show rejected400 (fsAppendFile fs (JVal.obj kvs))
      simp only [fsAppendFile, withArgsObj, hg, hn, hm]
      exact ⟨rfl, rfl, rfl⟩
    · show rejected400 (fsListDir fs (JVal.obj kvs))
      simp only [fsListDir, withArgsObj, hg, hm]
      exact ⟨rfl, rfl, rfl⟩
    · show rejected400 (fsMakeDirectory fs (JVal.obj kvs))
      simp only [fsMakeDirectory, withArgsObj, hg, hm]
      exact ⟨rfl, rfl, rfl⟩
    · show rejected400 (fsFileExists fs (JVal.obj kvs))
      simp only [fsFileExists, withArgsObj, hg, hm]
      exact ⟨rfl, rfl, rfl⟩
    · show rejected400 (fsDelete fs (JVal.obj kvs))
      simp only [fsDelete, withArgsObj, hg, hm]
      exact ⟨rfl, rfl, rfl⟩
    · show rejected400 (fsGetMetadata fs (JVal.obj kvs))
      simp only [fsGetMetadata, withArgsObj, hg, hm]
      exact ⟨rfl, rfl, rfl⟩
    · rintro ⟨n, hn⟩
      show rejected400 (fsSearchFiles fs (JVal.obj kvs))
      simp only [fsSearchFiles, withArgsObj, hg, hn, hm]
      exact ⟨rfl, rfl, rfl⟩
  · intro hsrc
    have hgs : jGetD kvs "src" (JVal.str "") = JVal.str s := by simp [jGetD, hsrc]
    constructor
    · show rejected400 (fsMove fs (JVal.obj kvs))
      simp only [fsMove, withArgsObj, hgs, hm]
      exact ⟨rfl, rfl, rfl⟩
    · show rejected400 (fsCopy fs (JVal.obj kvs))
      simp only [fsCopy, withArgsObj, hgs, hm]
      exact ⟨rfl, rfl, rfl⟩
  · rintro hdst ⟨p, hp⟩
    have hgd : jGetD kvs "dst" (JVal.str "") = JVal.str s := by simp [jGetD, hdst]
    constructor
    · show rejected400 (fsMove fs (JVal.obj kvs))
      simp only [fsMove, withArgsObj, hp, hgd, hm]
      exact ⟨rfl, rfl, rfl⟩
    · show rejected400 (fsCopy fs (JVal.obj kvs))
      simp only [fsCopy, withArgsObj, hp, hgd, hm]
      exact ⟨rfl, rfl, rfl⟩

/-- Closed instance of the C9 theorem: list_dir on a path with a ".." segment. -/
theorem C9_sandbox_witness :
    rejected400 (fs_execute_tool fsOracle0 "filesystem.list_dir"
      (JVal.obj [("path", JVal.str "../x")])) ∧ pathViolation "../x" := by
  have hv : pathViolation "../x" := by
    unfold pathViolation
    exact Or.inr (Or.inr (Or.inl (by decide)))
  exact ⟨(((C9_sandbox_validation_rejects fsOracle0 [("path", JVal.str "../x")] "../x"
    hv).1 rfl).2.2.2.1), hv⟩

end MCP
